import Mathlib

set_option maxRecDepth 1000000
set_option maxHeartbeats 1000000

deriving instance DecidableEq for Except

/-!
Shallow embedding of the OAuth 2.0 authorization-server core of the
`gogin` repository (package `internal/modules/oauth2`, with its
collaborators `internal/utils/jwt.go`, `internal/modules/redishelper`
and the data model in `internal/models`).

Go machine state (SQL tables, the Redis ledger) is modelled as explicit
Lean data passed through the operations; `time.Now()` is an explicit
`now : Nat` parameter; Go `(T, error)` returns are `Except`.
-/

namespace Gogin

/-! ### Go string primitives used by the source -/

/-- `listStartsWith s pat`: `pat` is a leading segment of `s` (on char lists). -/
def listStartsWith : List Char → List Char → Bool
  | _, [] => true
  | [], _ :: _ => false
  | a :: s, b :: t => a == b && listStartsWith s t

/-- Occurrence of `sub` anywhere inside `s` (on char lists). -/
def listHasSub (sub : List Char) : List Char → Bool
  | [] => listStartsWith [] sub
  | c :: t => listStartsWith (c :: t) sub || listHasSub sub t

/-- Model of Go `strings.Contains(s, substr)`. -/
def goContains (s substr : String) : Bool :=
  listHasSub substr.data s.data

/-! ### `crypto/sha256` and `encoding/base64` (RawURLEncoding)

The Go source computes `base64.RawURLEncoding.EncodeToString(sha256.Sum256([]byte(verifier)))`
for PKCE method `S256`.  We embed SHA-256 over `Nat` bytes/words with
explicit `% 2^32` truncation, and raw (unpadded) base64url. -/

/-- UTF-8 encoding of one Unicode code point, as Go `[]byte(string)` produces. -/
def utf8Bytes (c : Nat) : List Nat :=
  if c < 0x80 then [c]
  else if c < 0x800 then
    [0xC0 ||| (c >>> 6), 0x80 ||| (c &&& 0x3F)]
  else if c < 0x10000 then
    [0xE0 ||| (c >>> 12), 0x80 ||| ((c >>> 6) &&& 0x3F), 0x80 ||| (c &&& 0x3F)]
  else
    [0xF0 ||| (c >>> 18), 0x80 ||| ((c >>> 12) &&& 0x3F),
     0x80 ||| ((c >>> 6) &&& 0x3F), 0x80 ||| (c &&& 0x3F)]

/-- Model of Go `[]byte(s)`. -/
def strBytes (s : String) : List Nat :=
  (s.data.map (fun c => utf8Bytes c.toNat)).flatten

def add32 (a b : Nat) : Nat := (a + b) % 2 ^ 32

def rotr32 (n x : Nat) : Nat :=
  ((x >>> n) ||| (x <<< (32 - n))) % 2 ^ 32

def sha256K : List Nat :=
  [1116352408, 1899447441, 3049323471, 3921009573, 961987163, 1508970993,
   2453635748, 2870763221, 3624381080, 310598401, 607225278, 1426881987,
   1925078388, 2162078206, 2614888103, 3248222580, 3835390401, 4022224774,
   264347078, 604807628, 770255983, 1249150122, 1555081692, 1996064986,
   2554220882, 2821834349, 2952996808, 3210313671, 3336571891, 3584528711,
   113926993, 338241895, 666307205, 773529912, 1294757372, 1396182291,
   1695183700, 1986661051, 2177026350, 2456956037, 2730485921, 2820302411,
   3259730800, 3345764771, 3516065817, 3600352804, 4094571909, 275423344,
   430227734, 506948616, 659060556, 883997877, 958139571, 1322822218,
   1537002063, 1747873779, 1955562222, 2024104815, 2227730452, 2361852424,
   2428436474, 2756734187, 3204031479, 3329325298]

/-- 64-bit big-endian byte encoding of the message bit length. -/
def be64 (n : Nat) : List Nat :=
  [(n >>> 56) &&& 0xFF, (n >>> 48) &&& 0xFF, (n >>> 40) &&& 0xFF, (n >>> 32) &&& 0xFF,
   (n >>> 24) &&& 0xFF, (n >>> 16) &&& 0xFF, (n >>> 8) &&& 0xFF, n &&& 0xFF]

/-- SHA-256 padding: append 0x80, zeros to 56 mod 64, then the 64-bit bit length. -/
def sha256Pad (msg : List Nat) : List Nat :=
  let len := msg.length
  let padZeros := (119 - len % 64) % 64
  msg ++ [0x80] ++ List.replicate padZeros 0 ++ be64 (len * 8)

/-- Big-endian 32-bit words from bytes. -/
def toWords : List Nat → List Nat
  | a :: b :: c :: d :: rest =>
      ((((a <<< 8) ||| b) <<< 8 ||| c) <<< 8 ||| d) :: toWords rest
  | _ => []

/-- Split a word list into 16-word blocks (the padded message is always a
multiple of 16 words). -/
def toBlocks : List Nat → List (List Nat)
  | w0 :: w1 :: w2 :: w3 :: w4 :: w5 :: w6 :: w7 ::
    w8 :: w9 :: w10 :: w11 :: w12 :: w13 :: w14 :: w15 :: rest =>
      [w0, w1, w2, w3, w4, w5, w6, w7, w8, w9, w10, w11, w12, w13, w14, w15] :: toBlocks rest
  | _ => []

def ssig0 (x : Nat) : Nat := (rotr32 7 x) ^^^ (rotr32 18 x) ^^^ (x >>> 3)
def ssig1 (x : Nat) : Nat := (rotr32 17 x) ^^^ (rotr32 19 x) ^^^ (x >>> 10)
def bsig0 (x : Nat) : Nat := (rotr32 2 x) ^^^ (rotr32 13 x) ^^^ (rotr32 22 x)
def bsig1 (x : Nat) : Nat := (rotr32 6 x) ^^^ (rotr32 11 x) ^^^ (rotr32 25 x)

/-- Extend the 16-word block schedule by `k` further words. -/
def extendSchedule : List Nat → Nat → List Nat
  | ws, 0 => ws
  | ws, Nat.succ k =>
      let i := ws.length
      let w := add32 (add32 (ssig1 (ws.getD (i - 2) 0)) (ws.getD (i - 7) 0))
                     (add32 (ssig0 (ws.getD (i - 15) 0)) (ws.getD (i - 16) 0))
      extendSchedule (ws ++ [w]) k

structure Hash8 where
  a : Nat
  b : Nat
  c : Nat
  d : Nat
  e : Nat
  f : Nat
  g : Nat
  h : Nat
deriving DecidableEq

def sha256H0 : Hash8 :=
  ⟨1779033703, 3144134277, 1013904242, 2773480762, 1359893119, 2600822924, 528734635, 1541459225⟩

def sha256Round (st : Hash8) (kw : Nat × Nat) : Hash8 :=
  let ch := (st.e &&& st.f) ^^^ ((st.e ^^^ (2 ^ 32 - 1)) &&& st.g)
  let maj := (st.a &&& st.b) ^^^ (st.a &&& st.c) ^^^ (st.b &&& st.c)
  let t1 := add32 (add32 (add32 st.h (bsig1 st.e)) (add32 ch kw.1)) kw.2
  let t2 := add32 (bsig0 st.a) maj
  ⟨add32 t1 t2, st.a, st.b, st.c, add32 st.d t1, st.e, st.f, st.g⟩

def compressBlock (H : Hash8) (block : List Nat) : Hash8 :=
  let ws := extendSchedule block 48
  let st := (sha256K.zip ws).foldl sha256Round H
  ⟨add32 H.a st.a, add32 H.b st.b, add32 H.c st.c, add32 H.d st.d,
   add32 H.e st.e, add32 H.f st.f, add32 H.g st.g, add32 H.h st.h⟩

def wordBytes (w : Nat) : List Nat :=
  [(w >>> 24) &&& 0xFF, (w >>> 16) &&& 0xFF, (w >>> 8) &&& 0xFF, w &&& 0xFF]

/-- SHA-256 digest (32 bytes) of a byte list. -/
def sha256 (msg : List Nat) : List Nat :=
  let H := (toBlocks (toWords (sha256Pad msg))).foldl compressBlock sha256H0
  ([H.a, H.b, H.c, H.d, H.e, H.f, H.g, H.h].map wordBytes).flatten

def b64urlAlphabet : List Char :=
  "ABCDEFGHIJKLMNOPQRSTUVWXYZabcdefghijklmnopqrstuvwxyz0123456789-_".data

def b64Char (n : Nat) : Char := b64urlAlphabet.getD n 'A'

/-- Go `base64.RawURLEncoding.EncodeToString`: unpadded base64url. -/
def b64urlEncode : List Nat → List Char
  | a :: b :: c :: rest =>
      let n := (a <<< 16) ||| (b <<< 8) ||| c
      b64Char (n >>> 18) :: b64Char ((n >>> 12) &&& 63) ::
      b64Char ((n >>> 6) &&& 63) :: b64Char (n &&& 63) :: b64urlEncode rest
  | [a, b] =>
      let n := (a <<< 16) ||| (b <<< 8)
      [b64Char (n >>> 18), b64Char ((n >>> 12) &&& 63), b64Char ((n >>> 6) &&& 63)]
  | [a] =>
      let n := a <<< 16
      [b64Char (n >>> 18), b64Char ((n >>> 12) &&& 63)]
  | [] => []

/-- `base64url(sha256(verifier))`, the S256 recomputation in `verifyPKCE`
(`service.go` lines 381-384). -/
def computeS256 (verifier : String) : String :=
  ⟨b64urlEncode (sha256 (strBytes verifier))⟩

/-- `OAuth2Service.verifyPKCE` (`service.go` lines 380-388). -/
def verifyPKCE (challenge method verifier : String) : Bool :=
  if method = "S256" then computeS256 verifier == challenge
  else verifier == challenge

/-! ### Data model (`internal/models`, oauth part) -/

/-- `models.OAuthClient`.  `redirectURIs`, `scopes` and `grantTypes` are raw
strings exactly as in the Go struct (a JSON-array string and space-separated
lists); `deletedAt` is the soft-delete marker. -/
structure OAuthClient where
  id : String
  clientID : String
  clientSecret : String
  name : String
  redirectURIs : String
  scopes : String
  grantTypes : String
  isPublic : Bool
  isActive : Bool
  deletedAt : Option Nat
deriving DecidableEq

/-- `models.OAuthAuthorizationCode`.  `codeChallenge`/`codeChallengeMethod`
model `sql.NullString` as `Option String`. -/
structure OAuthAuthorizationCode where
  id : String
  code : String
  clientID : String
  userID : String
  redirectURI : String
  scopes : String
  codeChallenge : Option String
  codeChallengeMethod : Option String
  expiresAt : Nat
  isUsed : Bool
  createdAt : Nat
deriving DecidableEq

/-- `OAuthAuthorizationCode.IsExpired`: `time.Now().After(c.ExpiresAt)`. -/
def OAuthAuthorizationCode.IsExpired (c : OAuthAuthorizationCode) (now : Nat) : Bool :=
  c.expiresAt < now

/-! ### Token Codec (`internal/utils/jwt.go`) -/

/-- JWT signing algorithms relevant to the embedding.  The source signs with
`jwt.SigningMethodHS256` and its key function accepts any
`*jwt.SigningMethodHMAC`. -/
inductive Alg
  | HS256
  | HS384
  | HS512
  | RS256
  | noAlg
deriving DecidableEq

/-- The `token.Method.(*jwt.SigningMethodHMAC)` type switch of `ValidateToken`. -/
def Alg.isHMAC : Alg → Bool
  | .HS256 => true
  | .HS384 => true
  | .HS512 => true
  | _ => false

/-- `jwt.RegisteredClaims` (the fields the source sets/reads); `*jwt.NumericDate`
pointers become `Option Nat`. -/
structure RegisteredClaims where
  issuer : String
  subject : String
  expiresAt : Option Nat
  issuedAt : Option Nat
  notBefore : Option Nat
  id : String
deriving DecidableEq

/-- `utils.JWTClaims`. -/
structure JWTClaims where
  userID : String
  clientID : String
  role : String
  scopes : List String
  tokenID : String
  reg : RegisteredClaims
deriving DecidableEq

/-- Symbolic HMAC tag: the MAC of a claim set under a key and algorithm is
modelled as the triple itself, so tag equality coincides with "same algorithm,
same key, same signed payload" (collision-freeness of HMAC is assumed). -/
structure MacTag where
  alg : Alg
  key : String
  payload : JWTClaims
deriving DecidableEq

/-- A syntactically well-formed compact JWT: declared algorithm, claim set,
and the signature bytes (a `MacTag`). -/
structure TokenString where
  alg : Alg
  claims : JWTClaims
  tag : MacTag
deriving DecidableEq

/-- A token-string input to the server: either unparseable garbage or a
well-formed JWT. -/
inductive TokenInput
  | malformed
  | parsed (t : TokenString)
deriving DecidableEq

inductive JWTError
  | parseFailed
  | expired
  | invalid
deriving DecidableEq

/-- `JWTUtil.GenerateAccessToken` (jwt.go lines 36-63); the fresh `uuid` is the
explicit `tokenID` argument. -/
def GenerateAccessToken (secret issuer userID clientID role : String)
    (scopes : List String) (expiry now : Nat) (tokenID : String) : TokenString :=
  let claims : JWTClaims :=
    { userID := userID, clientID := clientID, role := role, scopes := scopes,
      tokenID := tokenID,
      reg := { issuer := issuer, subject := userID,
               expiresAt := some (now + expiry), issuedAt := some now,
               notBefore := some now, id := tokenID } }
  { alg := .HS256, claims := claims, tag := ⟨.HS256, secret, claims⟩ }

/-- `JWTUtil.GenerateRefreshToken` (jwt.go lines 66-91): note `Role` and
`Scopes` are left at their zero values. -/
def GenerateRefreshToken (secret issuer userID clientID : String)
    (expiry now : Nat) (tokenID : String) : TokenString :=
  let claims : JWTClaims :=
    { userID := userID, clientID := clientID, role := "", scopes := [],
      tokenID := tokenID,
      reg := { issuer := issuer, subject := userID,
               expiresAt := some (now + expiry), issuedAt := some now,
               notBefore := some now, id := tokenID } }
  { alg := .HS256, claims := claims, tag := ⟨.HS256, secret, claims⟩ }

/-- `JWTUtil.GenerateClientToken` (jwt.go lines 94-119): no user; subject is
the client id. -/
def GenerateClientToken (secret issuer clientID : String)
    (scopes : List String) (expiry now : Nat) (tokenID : String) : TokenString :=
  let claims : JWTClaims :=
    { userID := "", clientID := clientID, role := "", scopes := scopes,
      tokenID := tokenID,
      reg := { issuer := issuer, subject := clientID,
               expiresAt := some (now + expiry), issuedAt := some now,
               notBefore := some now, id := tokenID } }
  { alg := .HS256, claims := claims, tag := ⟨.HS256, secret, claims⟩ }

/-- `JWTUtil.ValidateToken` (jwt.go lines 122-145).

`libExp` is the external jwt library's own expiry-claim verdict (given the
`exp` claim and the current time): the library is third-party code outside the
repository, and the spec's requirement is exactly that the expiry re-check in
this function holds *whatever* the library decided, so that verdict is a
parameter.  The `nbf` check of the library's default validator is kept
concrete.  Order of gates follows `jwt.ParseWithClaims`: key function
(HMAC-family type switch), signature verification with the declared method,
registered-claims validation, then the source's own `ExpiresAt.Before(now)`
re-check. -/
def ValidateToken (secret : String) (libExp : Nat → Nat → Bool) (now : Nat) :
    TokenInput → Except JWTError JWTClaims
  | .malformed => .error .parseFailed
  | .parsed t =>
    if t.alg.isHMAC = false then .error .parseFailed
    else if t.tag ≠ MacTag.mk t.alg secret t.claims then .error .parseFailed
    else
      let expOk := match t.claims.reg.expiresAt with
        | none => true
        | some e => libExp e now
      let nbfOk := match t.claims.reg.notBefore with
        | none => true
        | some nb => decide (nb ≤ now)
      if (expOk && nbfOk) = false then .error .parseFailed
      else
        match t.claims.reg.expiresAt with
        | some e => if e < now then .error .expired else .ok t.claims
        | none => .ok t.claims

/-- The `golang-jwt/v5` default validator's actual `exp` rule (`now.Before(exp)`
required): the instantiation of `libExp` used by the service layer. -/
def jwtV5ExpCheck (e now : Nat) : Bool := now < e

/-! ### Revocation Ledger (`internal/modules/redishelper/redis_helper.go`) -/

/-- The Redis revocation state: `revoked` holds `(tokenID, deadline)` pairs
written by `Set key "revoked" ttl` (the key lives until `deadline`); `faulty`
models a transiently unreachable Redis, in which case every command returns an
error. -/
structure Ledger where
  revoked : List (String × Nat)
  faulty : Bool
deriving DecidableEq

namespace RedisHelper

/-- `RedisHelper.RevokeToken` (redis_helper.go lines 117-129): computes
`ttl = time.Until(expiresAt)`; if `ttl ≤ 0` it is a no-op success, otherwise a
`Set` with that TTL (so the key self-expires at `expiresAt`). -/
def RevokeToken (l : Ledger) (tokenID : String) (expiresAt now : Nat) :
    Except Unit Ledger :=
  if expiresAt ≤ now then .ok l
  else if l.faulty then .error ()
  else .ok { l with revoked := (tokenID, expiresAt) :: l.revoked }

/-- `RedisHelper.IsTokenRevoked` (lines 132-138) on top of `RedisClient.Exists`:
returns the Go pair `(bool, error)`, with the second component `true` when the
lookup errored.  `Exists` returns `(false, err)` on error. -/
def IsTokenRevoked (l : Ledger) (tokenID : String) (now : Nat) : Bool × Bool :=
  if l.faulty then (false, true)
  else (l.revoked.any (fun p => p.1 == tokenID && now < p.2), false)

end RedisHelper

/-! ### DTOs (`internal/modules/oauth2/dto.go`) -/

structure AuthorizeRequest where
  clientID : String
  redirectURI : String
  responseType : String
  scope : String
  state : String
  codeChallenge : String
  codeChallengeMethod : String
deriving DecidableEq

/-- `TokenRequest`; the `refresh_token` field carries a token string, modelled
as a `TokenInput`. -/
structure TokenRequest where
  grantType : String
  code : String
  redirectURI : String
  clientID : String
  clientSecret : String
  refreshToken : TokenInput
  codeVerifier : String
  scope : String
deriving DecidableEq

/-- `TokenResponse`; `refreshToken` is `omitempty` in Go and absent for the
client-credentials grant. -/
structure TokenResponse where
  accessToken : TokenString
  tokenType : String
  expiresIn : Nat
  refreshToken : Option TokenString
  scope : String
deriving DecidableEq

/-- `IntrospectResponse`; Go zero values are the field defaults, so
`IntrospectResponse{Active: false}` is `{ active := false }`. -/
structure IntrospectResponse where
  active : Bool
  scope : String := ""
  clientID : String := ""
  userID : String := ""
  tokenType : String := ""
  expiresAt : Nat := 0
  issuedAt : Nat := 0
deriving DecidableEq

/-! ### Database state -/

/-- A row of the `oauth_tokens` table. -/
structure StoredToken where
  id : String
  accessToken : TokenString
  refreshToken : Option TokenString
  tokenType : String
  expiresAt : Nat
  scopes : String
  clientID : String
  userID : Option String
  isRevoked : Bool
deriving DecidableEq

/-- The relational store: the three oauth tables the service touches. -/
structure Database where
  clients : List OAuthClient
  codes : List OAuthAuthorizationCode
  tokens : List StoredToken
deriving DecidableEq

/-- `config.Config` fields the oauth service reads. -/
structure Config where
  secret : String
  issuer : String
  accessTokenExpiry : Nat
  refreshTokenExpiry : Nat
deriving DecidableEq

/-- The fresh `uuid.New()` values drawn by one token-producing operation,
passed explicitly. -/
structure FreshIDs where
  accessID : String
  refreshID : String
  tokenRowID : String
deriving DecidableEq

/-- Service error values, one per distinct `fmt.Errorf` site (plus the raw
store errors the source propagates unchanged). -/
inductive OAuthErr
  | invalidClient
  | clientInactive
  | invalidRedirectURI
  | invalidAuthorizationCode
  | authorizationCodeExpired
  | clientMismatch
  | redirectURIMismatch
  | invalidCodeVerifier
  | clientNotFound
  | invalidClientSecret
  | grantTypeNotAllowed
  | invalidRefreshToken
  | refreshTokenRevoked
  | invalidToken
  | storeUnavailable
  | unsupportedGrantType
  | nilDeref
deriving DecidableEq

namespace OAuth2Service

/-- `OAuth2Service.GetClientByClientID` (service.go lines 297-328):
`SELECT ... FROM oauth_clients WHERE client_id = $1 AND deleted_at IS NULL`;
no row is the raw `sql.ErrNoRows`, modelled as `clientNotFound`. -/
def GetClientByClientID (db : Database) (clientID : String) :
    Except OAuthErr OAuthClient :=
  match db.clients.find? (fun c => c.clientID == clientID && c.deletedAt == none) with
  | some c => .ok c
  | none => .error .clientNotFound

/-- `OAuth2Service.validateRedirectURI` (service.go lines 375-378):
`strings.Contains(client.RedirectURIs, redirectURI)` on the raw stored string. -/
def validateRedirectURI (client : OAuthClient) (redirectURI : String) : Bool :=
  goContains client.redirectURIs redirectURI

/-- `OAuth2Service.CreateAuthorizationCode` (service.go lines 39-99); the two
`uuid.New()` draws are the explicit `freshID`/`freshCode` arguments; the row
insert appends to the table. -/
def CreateAuthorizationCode (db : Database) (userID : String)
    (req : AuthorizeRequest) (now : Nat) (freshID freshCode : String) :
    Except OAuthErr OAuthAuthorizationCode × Database :=
  match GetClientByClientID db req.clientID with
  | .error _ => (.error .invalidClient, db)
  | .ok client =>
    if client.isActive = false then (.error .clientInactive, db)
    else if validateRedirectURI client req.redirectURI = false then
      (.error .invalidRedirectURI, db)
    else
      let authCode : OAuthAuthorizationCode :=
        { id := freshID, code := freshCode, clientID := req.clientID,
          userID := userID, redirectURI := req.redirectURI, scopes := req.scope,
          codeChallenge := if req.codeChallenge ≠ "" then some req.codeChallenge else none,
          codeChallengeMethod := if req.codeChallenge ≠ "" then some req.codeChallengeMethod else none,
          expiresAt := now + 600, isUsed := false, createdAt := now }
      (.ok authCode, { db with codes := db.codes ++ [authCode] })

/-- The `SELECT ... FROM oauth_authorization_codes WHERE code = $1 AND
is_used = FALSE` of `ExchangeCodeForToken` (service.go lines 104-128); any scan
error (including no row) yields "invalid authorization code". -/
def findCodeRow (db : Database) (code : String) :
    Except OAuthErr OAuthAuthorizationCode :=
  match db.codes.find? (fun r => r.code == code && r.isUsed == false) with
  | some row => .ok row
  | none => .error .invalidAuthorizationCode

/-- The pure validations of `ExchangeCodeForToken` between the SELECT and the
UPDATE (service.go lines 130-150): expiry, client match, redirect-URI match,
PKCE (only when a challenge is stored). -/
def exchangeChecks (row : OAuthAuthorizationCode) (req : TokenRequest)
    (now : Nat) : Except OAuthErr Unit :=
  if row.IsExpired now then .error .authorizationCodeExpired
  else if row.clientID ≠ req.clientID then .error .clientMismatch
  else if row.redirectURI ≠ req.redirectURI then .error .redirectURIMismatch
  else
    match row.codeChallenge with
    | some ch =>
        if verifyPKCE ch (row.codeChallengeMethod.getD "") req.codeVerifier then .ok ()
        else .error .invalidCodeVerifier
    | none => .ok ()

/-- `UPDATE oauth_authorization_codes SET is_used = TRUE WHERE id = $1`
(service.go line 153): unconditional on `is_used`. -/
def markCodeUsed (db : Database) (id : String) : Database :=
  { db with codes := db.codes.map (fun r => if r.id == id then { r with isUsed := true } else r) }

/-- `OAuth2Service.generateTokens` (service.go lines 332-373): mint an
access/refresh pair, insert the `oauth_tokens` row, return the response. -/
def generateTokens (cfg : Config) (db : Database) (userID clientID : String)
    (scopes : List String) (now : Nat) (ids : FreshIDs) :
    Except OAuthErr TokenResponse × Database :=
  let access := GenerateAccessToken cfg.secret cfg.issuer userID clientID ""
    scopes cfg.accessTokenExpiry now ids.accessID
  let refresh := GenerateRefreshToken cfg.secret cfg.issuer userID clientID
    cfg.refreshTokenExpiry now ids.refreshID
  let row : StoredToken :=
    { id := ids.tokenRowID, accessToken := access, refreshToken := some refresh,
      tokenType := "Bearer", expiresAt := now + cfg.accessTokenExpiry,
      scopes := String.intercalate " " scopes, clientID := clientID,
      userID := some userID, isRevoked := false }
  (.ok { accessToken := access, tokenType := "Bearer",
         expiresIn := cfg.accessTokenExpiry, refreshToken := some refresh,
         scope := String.intercalate " " scopes },
   { db with tokens := db.tokens ++ [row] })

/-- The tail of `ExchangeCodeForToken` after the UPDATE (service.go lines
158-173): client lookup (its error propagated raw), secret check for
non-public clients, then `generateTokens`. -/
def exchangeFinish (cfg : Config) (db : Database) (req : TokenRequest)
    (row : OAuthAuthorizationCode) (now : Nat) (ids : FreshIDs) :
    Except OAuthErr TokenResponse × Database :=
  match GetClientByClientID db req.clientID with
  | .error e => (.error e, db)
  | .ok client =>
    if client.isPublic = false && req.clientSecret ≠ client.clientSecret then
      (.error .invalidClientSecret, db)
    else generateTokens cfg db row.userID req.clientID (row.scopes.splitOn " ") now ids

/-- `OAuth2Service.ExchangeCodeForToken` (service.go lines 102-174),
sequenced exactly as the source: SELECT, pure checks, UPDATE, client lookup,
secret check, token generation. -/
def ExchangeCodeForToken (cfg : Config) (db : Database) (req : TokenRequest)
    (now : Nat) (ids : FreshIDs) : Except OAuthErr TokenResponse × Database :=
  match findCodeRow db req.code with
  | .error e => (.error e, db)
  | .ok row =>
    match exchangeChecks row req now with
    | .error e => (.error e, db)
    | .ok _ => exchangeFinish cfg (markCodeUsed db row.id) req row now ids

/-- `OAuth2Service.ClientCredentialsGrant` (service.go lines 177-233). -/
def ClientCredentialsGrant (cfg : Config) (db : Database) (req : TokenRequest)
    (now : Nat) (ids : FreshIDs) : Except OAuthErr TokenResponse × Database :=
  match GetClientByClientID db req.clientID with
  | .error _ => (.error .invalidClient, db)
  | .ok client =>
    if client.isActive = false then (.error .clientInactive, db)
    else if req.clientSecret ≠ client.clientSecret then (.error .invalidClientSecret, db)
    else if goContains client.grantTypes "client_credentials" = false then
      (.error .grantTypeNotAllowed, db)
    else
      let scope := if req.scope = "" then client.scopes else req.scope
      let scopes := scope.splitOn " "
      let access := GenerateClientToken cfg.secret cfg.issuer req.clientID
        scopes cfg.accessTokenExpiry now ids.accessID
      let row : StoredToken :=
        { id := ids.tokenRowID, accessToken := access, refreshToken := none,
          tokenType := "Bearer", expiresAt := now + cfg.accessTokenExpiry,
          scopes := scope, clientID := req.clientID, userID := none,
          isRevoked := false }
      (.ok { accessToken := access, tokenType := "Bearer",
             expiresIn := cfg.accessTokenExpiry, refreshToken := none,
             scope := scope },
       { db with tokens := db.tokens ++ [row] })

/-- `OAuth2Service.RefreshTokenGrant` (service.go lines 236-256): note the
revocation lookup's error is discarded (`revoked, _ := ...`). -/
def RefreshTokenGrant (cfg : Config) (db : Database) (l : Ledger)
    (req : TokenRequest) (now : Nat) (ids : FreshIDs) :
    Except OAuthErr TokenResponse × Database :=
  match ValidateToken cfg.secret jwtV5ExpCheck now req.refreshToken with
  | .error _ => (.error .invalidRefreshToken, db)
  | .ok claims =>
    if (RedisHelper.IsTokenRevoked l claims.tokenID now).1 then (.error .refreshTokenRevoked, db)
    else if claims.clientID ≠ req.clientID then (.error .clientMismatch, db)
    else generateTokens cfg db claims.userID req.clientID claims.scopes now ids

/-- `OAuth2Service.RevokeToken` (service.go lines 259-269): validate (errors
become "invalid token"), then write the ledger entry keyed by `jti` with the
token's own expiry as deadline.  The source reads `claims.ExpiresAt.Time`
through a `*jwt.NumericDate` pointer with no nil check: a validated token
that carries no `exp` claim makes that dereference crash on a nil pointer
(the surrounding HTTP framework's recovery turns it into a 500 response and
the ledger is left untouched) — that crash is the distinguished `nilDeref`
outcome, which is in particular not a success. -/
def RevokeToken (cfg : Config) (l : Ledger) (token : TokenInput) (now : Nat) :
    Except OAuthErr Unit × Ledger :=
  match ValidateToken cfg.secret jwtV5ExpCheck now token with
  | .error _ => (.error .invalidToken, l)
  | .ok claims =>
    match claims.reg.expiresAt with
    | none => (.error .nilDeref, l)
    | some e =>
      match RedisHelper.RevokeToken l claims.tokenID e now with
      | .ok l' => (.ok (), l')
      | .error _ => (.error .storeUnavailable, l)

/-- `OAuth2Service.IntrospectToken` (service.go lines 272-294): the Go `error`
result is always nil, so the model returns the response alone.  The revocation
lookup's error is discarded (`revoked, _ := ...`).  The populate branch reads
`claims.ExpiresAt.Unix()` and `claims.IssuedAt.Unix()` through pointers that
would crash for a validated token lacking those claims; the `getD 0` below
stands in for that corner, which no theorem in this file exercises (the
codec's own tokens always carry both claims). -/
def IntrospectToken (cfg : Config) (l : Ledger) (token : TokenInput)
    (now : Nat) : IntrospectResponse :=
  match ValidateToken cfg.secret jwtV5ExpCheck now token with
  | .error _ => { active := false }
  | .ok claims =>
    if (RedisHelper.IsTokenRevoked l claims.tokenID now).1 then { active := false }
    else
      { active := true, scope := String.intercalate " " claims.scopes,
        clientID := claims.clientID, userID := claims.userID,
        tokenType := "Bearer", expiresAt := claims.reg.expiresAt.getD 0,
        issuedAt := claims.reg.issuedAt.getD 0 }

/-- The `token` handler's grant-type dispatch (handlers.go lines 64-95). -/
def token (cfg : Config) (db : Database) (l : Ledger) (req : TokenRequest)
    (now : Nat) (ids : FreshIDs) : Except OAuthErr TokenResponse × Database :=
  if req.grantType = "authorization_code" then ExchangeCodeForToken cfg db req now ids
  else if req.grantType = "client_credentials" then ClientCredentialsGrant cfg db req now ids
  else if req.grantType = "refresh_token" then RefreshTokenGrant cfg db l req now ids
  else (.error .unsupportedGrantType, db)

/-- The remainder of one `ExchangeCodeForToken` execution after its SELECT has
produced `sel`: exactly the source's code path from line 126 onward. -/
def continueAfterSelect (cfg : Config) (db : Database) (req : TokenRequest)
    (sel : Except OAuthErr OAuthAuthorizationCode) (now : Nat) (ids : FreshIDs) :
    Except OAuthErr TokenResponse × Database :=
  match sel with
  | .error e => (.error e, db)
  | .ok row =>
    match exchangeChecks row req now with
    | .error e => (.error e, db)
    | .ok _ => exchangeFinish cfg (markCodeUsed db row.id) req row now ids

/-- Two concurrent `ExchangeCodeForToken` executions under the schedule in
which both SELECT statements run before either UPDATE.  Each request performs
exactly the phases of the sequential function (`findCodeRow`,
`exchangeChecks`, `markCodeUsed`, `exchangeFinish`); only the order in which
their store round trips hit the shared database differs.  This is a legal
interleaving because the source runs the SELECT and the UPDATE as two separate
statements with no transaction around them. -/
def interleavedDoubleExchange (cfg : Config) (db : Database)
    (req1 req2 : TokenRequest) (now : Nat) (ids1 ids2 : FreshIDs) :
    (Except OAuthErr TokenResponse × Except OAuthErr TokenResponse) × Database :=
  let s1 := findCodeRow db req1.code
  let s2 := findCodeRow db req2.code
  match s1 with
  | .error e1 =>
      let (r2, db2) := continueAfterSelect cfg db req2 s2 now ids2
      ((.error e1, r2), db2)
  | .ok row1 =>
    match exchangeChecks row1 req1 now with
    | .error e1 =>
        let (r2, db2) := continueAfterSelect cfg db req2 s2 now ids2
        ((.error e1, r2), db2)
    | .ok _ =>
      let dbA := markCodeUsed db row1.id
      match s2 with
      | .error e2 =>
          let (r1, db1) := exchangeFinish cfg dbA req1 row1 now ids1
          ((r1, .error e2), db1)
      | .ok row2 =>
        match exchangeChecks row2 req2 now with
        | .error e2 =>
            let (r1, db1) := exchangeFinish cfg dbA req1 row1 now ids1
            ((r1, .error e2), db1)
        | .ok _ =>
          let dbB := markCodeUsed dbA row2.id
          let (r1, db1) := exchangeFinish cfg dbB req1 row1 now ids1
          let (r2, db2) := exchangeFinish cfg db1 req2 row2 now ids2
          ((r1, r2), db2)

end OAuth2Service

/-- Success test on a Go `(T, error)` pair. -/
def exceptOk : Except ε α → Bool
  | .ok _ => true
  | .error _ => false

/-- The error component of a Go `(T, error)` pair, when present. -/
def exceptErr : Except ε α → Option ε
  | .ok _ => none
  | .error e => some e

/-! ### Concrete fixtures used by counterexamples and witnesses -/

def cfgEx : Config :=
  { secret := "topsecret", issuer := "gogin",
    accessTokenExpiry := 3600, refreshTokenExpiry := 2592000 }

def clientEx : OAuthClient :=
  { id := "1", clientID := "cid-1", clientSecret := "s3cr3t", name := "app",
    redirectURIs := "[\"https://app/cb\"]", scopes := "read write",
    grantTypes := "authorization_code refresh_token",
    isPublic := true, isActive := true, deletedAt := none }

def codeRowEx : OAuthAuthorizationCode :=
  { id := "ac-1", code := "codeX", clientID := "cid-1", userID := "u-1",
    redirectURI := "https://app/cb", scopes := "read write",
    codeChallenge := none, codeChallengeMethod := none,
    expiresAt := 600, isUsed := false, createdAt := 0 }

def dbEx : Database := { clients := [clientEx], codes := [codeRowEx], tokens := [] }

def exchReqEx : TokenRequest :=
  { grantType := "authorization_code", code := "codeX",
    redirectURI := "https://app/cb", clientID := "cid-1", clientSecret := "",
    refreshToken := .malformed, codeVerifier := "", scope := "" }

def idsA : FreshIDs := ⟨"at-1", "rt-1", "row-1"⟩
def idsB : FreshIDs := ⟨"at-2", "rt-2", "row-2"⟩

def ledgerEmpty : Ledger := ⟨[], false⟩

/-- Client registered exactly for `https://good.example/cb` (§8 of the spec). -/
def clientGood : OAuthClient :=
  { clientEx with redirectURIs := "[\"https://good.example/cb\"]" }

def dbGood : Database := { dbEx with clients := [clientGood] }

/-- Authorize request presenting a proper substring of the registered URI. -/
def authorizeReqSub : AuthorizeRequest :=
  { clientID := "cid-1", redirectURI := "https://good.example/c",
    responseType := "code", scope := "read", state := "",
    codeChallenge := "", codeChallengeMethod := "" }

/-- An authorization code row both already consumed and past its expiry. -/
def codeRowUsedExpired : OAuthAuthorizationCode :=
  { codeRowEx with isUsed := true, expiresAt := 600 }

def dbUsedExpired : Database := { dbEx with codes := [codeRowUsedExpired] }

/-- The stored challenge of the spec's §8 PKCE test vector: the
SHA-256/base64url digest of verifier `"abc123"`. -/
def s256ChallengeEx : String := computeS256 "abc123"

/-- Code row carrying an S256 PKCE challenge. -/
def codeRowPkce : OAuthAuthorizationCode :=
  { codeRowEx with codeChallenge := some s256ChallengeEx,
                   codeChallengeMethod := some "S256" }

def dbPkce : Database := { dbEx with codes := [codeRowPkce] }

def reqPkce : TokenRequest := { exchReqEx with codeVerifier := "abc123" }

/-- Claim set used by the Token Codec counterexamples. -/
def claimsEx : JWTClaims :=
  { userID := "u-1", clientID := "cid-1", role := "", scopes := ["read"],
    tokenID := "tid-1",
    reg := { issuer := "gogin", subject := "u-1", expiresAt := some 100,
             issuedAt := some 0, notBefore := some 0, id := "tid-1" } }

/-- A token HMAC-signed with the server's secret but declaring HS384 rather
than the HS256 the codec issues with. -/
def tokenHS384 : TokenString :=
  { alg := .HS384, claims := claimsEx, tag := ⟨.HS384, "topsecret", claimsEx⟩ }

/-- An access token minted by the codec at time 0 that expires at time 100. -/
def tokenShortLived : TokenString :=
  GenerateAccessToken "topsecret" "gogin" "u-1" "cid-1" "" ["read"] 100 0 "tid-7"

/-- Client whose allowed grant types do not include `authorization_code`. -/
def clientNoAuthCode : OAuthClient :=
  { clientEx with grantTypes := "client_credentials" }

def dbNoAuthCode : Database :=
  { dbEx with clients := [clientNoAuthCode] }

/-- A confidential client, for the consumed-before-secret-check scenario. -/
def clientConf : OAuthClient :=
  { clientEx with isPublic := false, clientSecret := "s3cr3t" }

def dbConf : Database := { dbEx with clients := [clientConf] }

/-- Exchange request for `dbConf` presenting the wrong client secret. -/
def reqWrongSecret : TokenRequest := { exchReqEx with clientSecret := "nope" }

/-- A foreign HS256 token carrying no `exp` claim (the codec's own tokens
always carry one, but `ValidateToken` accepts a missing `exp`). -/
def tokenNoExp : TokenString :=
  let claims : JWTClaims :=
    { userID := "u-2", clientID := "cid-1", role := "", scopes := [],
      tokenID := "tid-noexp",
      reg := { issuer := "ext", subject := "u-2", expiresAt := none,
               issuedAt := none, notBefore := none, id := "tid-noexp" } }
  { alg := .HS256, claims := claims, tag := ⟨.HS256, "topsecret", claims⟩ }

/-- Client allowing only the `authorization_code` grant type. -/
def clientNoCC : OAuthClient :=
  { clientEx with grantTypes := "authorization_code" }

def dbNoCC : Database := { dbEx with clients := [clientNoCC] }

/-- Client-credentials request for `dbNoCC` with the correct secret. -/
def ccReqEx : TokenRequest :=
  { grantType := "client_credentials", code := "", redirectURI := "",
    clientID := "cid-1", clientSecret := "s3cr3t", refreshToken := .malformed,
    codeVerifier := "", scope := "" }

/-- Ledger holding a live revocation entry for token id `tid-7`. -/
def ledgerTid7 : Ledger := ⟨[("tid-7", 100)], false⟩

end Gogin

namespace Gogin

open OAuth2Service

/-- C1: the claim says authorization-code consumption is atomic (one
conditional update), so that of N concurrent exchanges of the same code at
most one succeeds and the rest fail with CODE_ALREADY_USED.  The source
instead issues a plain SELECT (filtered on `is_used = FALSE`) followed by a
separate unconditional UPDATE; under the legal interleaving in which both
SELECTs run before either UPDATE, two concurrent exchanges of the same code
BOTH succeed.  Moreover even a serialized loser fails with the generic
"invalid authorization code" error, not a distinct already-used error. -/
theorem code_consumption_race_two_winners :
    exceptOk (interleavedDoubleExchange cfgEx dbEx exchReqEx exchReqEx 0 idsA idsB).1.1 = true ∧
    exceptOk (interleavedDoubleExchange cfgEx dbEx exchReqEx exchReqEx 0 idsA idsB).1.2 = true ∧
    exceptErr (ExchangeCodeForToken cfgEx
        (ExchangeCodeForToken cfgEx dbEx exchReqEx 0 idsA).2 exchReqEx 0 idsB).1
      = some OAuthErr.invalidAuthorizationCode := by
  decide

/-- C2: the claim says a redirect URI is accepted iff it exactly equals a
registered URI.  The source uses `strings.Contains` on the stored
redirect-URI string, so the proper substring `https://good.example/c` of the
registered `https://good.example/cb` is accepted by `validateRedirectURI`,
and `CreateAuthorizationCode` issues a code for it instead of failing with
INVALID_REDIRECT_URI. -/
theorem redirect_uri_substring_accepted :
    validateRedirectURI clientGood "https://good.example/c" = true ∧
    ("https://good.example/c" : String) ≠ "https://good.example/cb" ∧
    exceptOk (CreateAuthorizationCode dbGood "u-1" authorizeReqSub 0 "id-1" "code-1").1 = true := by
  decide

/-- C3 counterexample: the claim says an exchange attempted after expiry fails
with CODE_EXPIRED regardless of the `used` state.  For a code both used and
expired (10-minute TTL, attempted at minute 21) the source's SELECT filters on
`is_used = FALSE`, so the exchange fails with the generic invalid-code error,
not CODE_EXPIRED. -/
theorem used_expired_code_not_reported_expired :
    exceptErr (ExchangeCodeForToken cfgEx dbUsedExpired exchReqEx 1260 idsA).1
        = some OAuthErr.invalidAuthorizationCode ∧
    exceptErr (ExchangeCodeForToken cfgEx dbUsedExpired exchReqEx 1260 idsA).1
        ≠ some OAuthErr.authorizationCodeExpired := by
  decide

/-- C4 counterexample: the claim says an exchange is rejected with
PKCE_VERIFICATION_FAILED when a verifier is supplied but no challenge was
registered.  The source only enters PKCE verification when
`authCode.CodeChallenge.Valid`, so a supplied verifier against a
challenge-free code is silently ignored and the exchange succeeds. -/
theorem verifier_without_challenge_ignored :
    codeRowEx.codeChallenge = none ∧
    ({ exchReqEx with codeVerifier := "v" } : TokenRequest).codeVerifier ≠ "" ∧
    exceptOk (ExchangeCodeForToken cfgEx dbEx
        { exchReqEx with codeVerifier := "v" } 0 idsA).1 = true := by
  decide

/-- C5 counterexample: the claim says `validate` rejects any token whose
declared algorithm differs from the single configured algorithm (HS256).  The
source's key function accepts the whole `SigningMethodHMAC` family, so a
token declaring HS384 — a different algorithm — validates successfully. -/
theorem hs384_token_accepted :
    tokenHS384.alg ≠ Alg.HS256 ∧
    ValidateToken "topsecret" jwtV5ExpCheck 0 (.parsed tokenHS384) = .ok claimsEx := by
  decide

/-- C6 counterexample: the claim says every grant flow fails with
GRANT_TYPE_NOT_ALLOWED when the requested grant type is not in the client's
registered set.  For a client whose grant types are only
`client_credentials`, a token-endpoint call with
`grant_type=authorization_code` succeeds anyway: `ExchangeCodeForToken`
never consults `client.GrantTypes`. -/
theorem exchange_ignores_allowed_grant_types :
    goContains clientNoAuthCode.grantTypes "authorization_code" = false ∧
    exceptOk (token cfgEx dbNoAuthCode ledgerEmpty exchReqEx 0 idsA).1 = true := by
  decide

/-- C7 counterexample: the claim says `revoke` treats an already-expired or
malformed token as a no-op success.  The source returns an "invalid token"
error for a malformed token and likewise for a token past its expiry
(validation fails), instead of succeeding. -/
theorem revoke_rejects_invalid_tokens :
    RevokeToken cfgEx ledgerEmpty .malformed 0 = (.error .invalidToken, ledgerEmpty) ∧
    RevokeToken cfgEx ledgerEmpty (.parsed tokenShortLived) 200
        = (.error .invalidToken, ledgerEmpty) := by
  decide

end Gogin


namespace Gogin

open OAuth2Service

/-! ### Helper lemmas about the exchange flow -/

theorem findCodeRow_error_shape (db : Database) (code : String) (e : OAuthErr)
    (h : findCodeRow db code = .error e) : e = .invalidAuthorizationCode := by
  unfold findCodeRow at h
  split at h
  · exact absurd h (by simp)
  · exact (Except.error.injEq _ _).mp h.symm ▸ rfl

theorem getClient_error_shape (db : Database) (cid : String) (e : OAuthErr)
    (h : GetClientByClientID db cid = .error e) : e = .clientNotFound := by
  unfold GetClientByClientID at h
  split at h
  · exact absurd h (by simp)
  · injection h with h1; exact h1.symm

theorem exchangeChecks_error_shape (row : OAuthAuthorizationCode) (req : TokenRequest)
    (now : Nat) (e : OAuthErr) (h : exchangeChecks row req now = .error e) :
    e = .authorizationCodeExpired ∨ e = .clientMismatch ∨ e = .redirectURIMismatch ∨
      e = .invalidCodeVerifier := by
  unfold exchangeChecks at h
  split at h
  · injection h with h1; exact Or.inl h1.symm
  · split at h
    · injection h with h1; exact Or.inr (Or.inl h1.symm)
    · split at h
      · injection h with h1; exact Or.inr (Or.inr (Or.inl h1.symm))
      · split at h
        · split at h
          · exact absurd h (by simp)
          · injection h with h1; exact Or.inr (Or.inr (Or.inr h1.symm))
        · exact absurd h (by simp)

theorem generateTokens_ok_shape (cfg : Config) (db : Database) (uid cid : String)
    (scopes : List String) (now : Nat) (ids : FreshIDs) :
    exceptOk (generateTokens cfg db uid cid scopes now ids).1 = true := rfl

theorem exchangeFinish_error_shape (cfg : Config) (db : Database) (req : TokenRequest)
    (row : OAuthAuthorizationCode) (now : Nat) (ids : FreshIDs) (e : OAuthErr)
    (h : (exchangeFinish cfg db req row now ids).1 = .error e) :
    e = .clientNotFound ∨ e = .invalidClientSecret := by
  unfold exchangeFinish at h
  split at h
  · next heq => exact Or.inl ((by injection h with h1; exact h1.symm : e = _) ▸ getClient_error_shape _ _ _ heq ▸ rfl)
  · split at h
    · injection h with h1; exact Or.inr h1.symm
    · rw [generateTokens] at h; exact absurd h (by simp)

theorem exchangeFinish_codes (cfg : Config) (db : Database) (req : TokenRequest)
    (row : OAuthAuthorizationCode) (now : Nat) (ids : FreshIDs) :
    ((exchangeFinish cfg db req row now ids).2).codes = db.codes := by
  unfold exchangeFinish generateTokens
  split
  · rfl
  · split <;> rfl

theorem exchange_codes_shape (cfg : Config) (db : Database) (req : TokenRequest)
    (now : Nat) (ids : FreshIDs) :
    ((ExchangeCodeForToken cfg db req now ids).2).codes = db.codes ∨
    ∃ id, ((ExchangeCodeForToken cfg db req now ids).2).codes = (markCodeUsed db id).codes := by
  unfold ExchangeCodeForToken
  split
  · exact Or.inl rfl
  · next row heq =>
    split
    · exact Or.inl rfl
    · exact Or.inr ⟨row.id, by rw [exchangeFinish_codes]⟩

theorem markCodeUsed_pointwise (db : Database) (id : String) (i : Nat) :
    ((markCodeUsed db id).codes[i]?.map (fun r => r.expiresAt)
        = db.codes[i]?.map (fun r => r.expiresAt)) ∧
    (db.codes[i]?.map (fun r => r.isUsed) = some true →
        (markCodeUsed db id).codes[i]?.map (fun r => r.isUsed) = some true) := by
  unfold markCodeUsed
  simp only [List.getElem?_map]
  cases h : db.codes[i]? with
  | none => simp
  | some r =>
    refine ⟨?_, ?_⟩
    · simp
      split <;> rfl
    · intro h2
      simp at h2
      simp
      split <;> simp [h2]

theorem used_code_select_fails (db : Database) (code : String)
    (h : ∀ r ∈ db.codes, r.code = code → r.isUsed = true) :
    findCodeRow db code = .error .invalidAuthorizationCode := by
  unfold findCodeRow
  have hn : db.codes.find? (fun r => r.code == code && r.isUsed == false) = none := by
    apply List.find?_eq_none.mpr
    intro r hr
    by_cases hc : r.code = code
    · simp [hc, h r hr hc]
    · simp [hc]
  rw [hn]

theorem marked_code_select_fails (db : Database) (rowID : String) (code : String)
    (huniq : ∀ r ∈ db.codes, r.code = code → r.id = rowID) :
    findCodeRow (markCodeUsed db rowID) code = .error .invalidAuthorizationCode := by
  unfold findCodeRow markCodeUsed
  have hn : (db.codes.map (fun r => if r.id == rowID then { r with isUsed := true } else r)).find?
      (fun r => r.code == code && r.isUsed == false) = none := by
    apply List.find?_eq_none.mpr
    intro r' hr'
    rcases List.mem_map.mp hr' with ⟨r, hr, rfl⟩
    by_cases hid : r.id = rowID
    · simp [hid]
    · by_cases hc : r.code = code
      · exact absurd (huniq r hr hc) hid
      · simp [hid, hc]
  rw [hn]

/-! ### Claim theorems (universally quantified) -/

theorem exchange_error_shape (cfg : Config) (db : Database) (req : TokenRequest)
    (now : Nat) (ids : FreshIDs) (e : OAuthErr)
    (h : (ExchangeCodeForToken cfg db req now ids).1 = .error e) :
    e = .invalidAuthorizationCode ∨ e = .authorizationCodeExpired ∨ e = .clientMismatch ∨
    e = .redirectURIMismatch ∨ e = .invalidCodeVerifier ∨ e = .clientNotFound ∨
    e = .invalidClientSecret := by
  unfold ExchangeCodeForToken at h
  split at h
  · next e' heq =>
    simp at h
    exact Or.inl (h ▸ findCodeRow_error_shape _ _ _ heq)
  · next row heq =>
    split at h
    · next e' heq2 =>
      simp at h
      rcases exchangeChecks_error_shape _ _ _ _ heq2 with h1 | h1 | h1 | h1 <;>
        simp [h ▸ h1]
    · rcases exchangeFinish_error_shape _ _ _ _ _ _ _ h with h1 | h1 <;> simp [h1]

theorem refresh_error_shape (cfg : Config) (db : Database) (l : Ledger)
    (req : TokenRequest) (now : Nat) (ids : FreshIDs) (e : OAuthErr)
    (h : (RefreshTokenGrant cfg db l req now ids).1 = .error e) :
    e = .invalidRefreshToken ∨ e = .refreshTokenRevoked ∨ e = .clientMismatch := by
  unfold RefreshTokenGrant at h
  split at h
  · simp at h; exact Or.inl h.symm
  · split at h
    · simp at h; exact Or.inr (Or.inl h.symm)
    · split at h
      · simp at h; exact Or.inr (Or.inr h.symm)
      · rw [generateTokens] at h; simp at h

/-- C3 (amended): once an authorization code is used or expired it is
permanently invalid.  (1) If every row with the request's code value is
marked used, the exchange fails (with the generic invalid-code error — the
source's SELECT filters on `is_used = FALSE`, so a used code is
indistinguishable from a missing one and the claim's "CODE_EXPIRED
regardless of used state" does not hold, see the counterexample).  (2) An
unused but expired code fails with CODE_EXPIRED.  (3) No exchange ever
clears a used flag or changes an expiry.  (4) Creating a new code leaves
every existing row untouched. -/
theorem code_lifecycle_terminal :
    (∀ (cfg : Config) (db : Database) (req : TokenRequest) (now : Nat) (ids : FreshIDs),
        (∀ r ∈ db.codes, r.code = req.code → r.isUsed = true) →
        ExchangeCodeForToken cfg db req now ids = (.error .invalidAuthorizationCode, db)) ∧
    (∀ (cfg : Config) (db : Database) (req : TokenRequest) (now : Nat) (ids : FreshIDs)
        (row : OAuthAuthorizationCode),
        findCodeRow db req.code = .ok row → row.IsExpired now = true →
        ExchangeCodeForToken cfg db req now ids = (.error .authorizationCodeExpired, db)) ∧
    (∀ (cfg : Config) (db : Database) (req : TokenRequest) (now : Nat) (ids : FreshIDs) (i : Nat),
        ((ExchangeCodeForToken cfg db req now ids).2.codes[i]?.map (fun r => r.expiresAt)
            = db.codes[i]?.map (fun r => r.expiresAt)) ∧
        (db.codes[i]?.map (fun r => r.isUsed) = some true →
            (ExchangeCodeForToken cfg db req now ids).2.codes[i]?.map (fun r => r.isUsed)
              = some true)) ∧
    (∀ (db : Database) (uid : String) (areq : AuthorizeRequest) (now : Nat)
        (fid fc : String) (i : Nat), i < db.codes.length →
        (CreateAuthorizationCode db uid areq now fid fc).2.codes[i]? = db.codes[i]?) := by
  refine ⟨fun cfg db req now ids h => ?_, fun cfg db req now ids row hsel hexp => ?_,
          fun cfg db req now ids i => ?_, fun db uid areq now fid fc i hlen => ?_⟩
  · have hsel := used_code_select_fails db req.code h
    unfold ExchangeCodeForToken
    rw [hsel]
  · have hchk : exchangeChecks row req now = .error .authorizationCodeExpired := by
      unfold exchangeChecks
      simp [hexp]
    unfold ExchangeCodeForToken
    rw [hsel]
    dsimp only
    rw [hchk]
  · rcases exchange_codes_shape cfg db req now ids with hc | ⟨id, hc⟩
    · rw [hc]
      exact ⟨rfl, fun h => h⟩
    · rw [hc]
      exact markCodeUsed_pointwise db id i
  · unfold CreateAuthorizationCode
    split
    · rfl
    · split
      · rfl
      · split
        · rfl
        · simp [List.getElem?_append, hlen]

/-- C6 (amended): only the client-credentials flow enforces the client's
registered allowed-grant-type set (via a substring check on the stored
grant-types string); the authorization-code and refresh-token flows can
never produce GRANT_TYPE_NOT_ALLOWED. -/
theorem grant_type_checked_only_in_client_credentials :
    (∀ (cfg : Config) (db : Database) (req : TokenRequest) (now : Nat) (ids : FreshIDs)
        (client : OAuthClient),
        GetClientByClientID db req.clientID = .ok client →
        client.isActive = true →
        req.clientSecret = client.clientSecret →
        goContains client.grantTypes "client_credentials" = false →
        ClientCredentialsGrant cfg db req now ids = (.error .grantTypeNotAllowed, db)) ∧
    (∀ (cfg : Config) (db : Database) (req : TokenRequest) (now : Nat) (ids : FreshIDs),
        (ExchangeCodeForToken cfg db req now ids).1 ≠ .error .grantTypeNotAllowed) ∧
    (∀ (cfg : Config) (db : Database) (l : Ledger) (req : TokenRequest) (now : Nat)
        (ids : FreshIDs),
        (RefreshTokenGrant cfg db l req now ids).1 ≠ .error .grantTypeNotAllowed) := by
  refine ⟨fun cfg db req now ids client hcl hact hsec hgr => ?_,
          fun cfg db req now ids hcon => ?_, fun cfg db l req now ids hcon => ?_⟩
  · unfold ClientCredentialsGrant
    rw [hcl]
    simp [hact, hsec, hgr]
  · rcases exchange_error_shape cfg db req now ids _ hcon with h | h | h | h | h | h | h <;>
      exact absurd h (by simp)
  · rcases refresh_error_shape cfg db l req now ids _ hcon with h | h | h <;>
      exact absurd h (by simp)

/-- C10: the code is marked used before the client is looked up for secret
verification.  If the confidential client's secret check fails (or the
client lookup fails), the exchange returns an error yet the database is left
with the code marked used, and any later exchange presenting the same code
fails with the invalid-code error. -/
theorem secret_failure_leaves_code_consumed :
    (∀ (cfg : Config) (db : Database) (req : TokenRequest) (now : Nat) (ids : FreshIDs)
        (row : OAuthAuthorizationCode) (client : OAuthClient),
        findCodeRow db req.code = .ok row →
        exchangeChecks row req now = .ok () →
        GetClientByClientID (markCodeUsed db row.id) req.clientID = .ok client →
        client.isPublic = false →
        req.clientSecret ≠ client.clientSecret →
        ExchangeCodeForToken cfg db req now ids
          = (.error .invalidClientSecret, markCodeUsed db row.id)) ∧
    (∀ (cfg : Config) (db : Database) (req : TokenRequest) (now : Nat) (ids : FreshIDs)
        (row : OAuthAuthorizationCode) (e : OAuthErr),
        findCodeRow db req.code = .ok row →
        exchangeChecks row req now = .ok () →
        GetClientByClientID (markCodeUsed db row.id) req.clientID = .error e →
        ExchangeCodeForToken cfg db req now ids = (.error e, markCodeUsed db row.id)) ∧
    (∀ (cfg2 : Config) (db : Database) (rowID : String) (req2 : TokenRequest)
        (now2 : Nat) (ids2 : FreshIDs),
        (∀ r ∈ db.codes, r.code = req2.code → r.id = rowID) →
        ExchangeCodeForToken cfg2 (markCodeUsed db rowID) req2 now2 ids2
          = (.error .invalidAuthorizationCode, markCodeUsed db rowID)) := by
  refine ⟨fun cfg db req now ids row client hsel hchk hcl hpub hsec => ?_,
          fun cfg db req now ids row e hsel hchk hcl => ?_,
          fun cfg2 db rowID req2 now2 ids2 huniq => ?_⟩
  · unfold ExchangeCodeForToken
    rw [hsel]
    dsimp only
    rw [hchk]
    dsimp only
    unfold exchangeFinish
    rw [hcl]
    simp [hpub, hsec]
  · unfold ExchangeCodeForToken
    rw [hsel]
    dsimp only
    rw [hchk]
    dsimp only
    unfold exchangeFinish
    rw [hcl]
  · unfold ExchangeCodeForToken
    rw [marked_code_select_fails db rowID req2.code huniq]

/-- C4 (amended): with a stored S256 challenge the exchange succeeds only
if `base64url(sha256(verifier))` exactly equals it; with any other stored
method only if the verifier equals the challenge; a registered challenge
with a missing (empty) verifier fails; but a supplied verifier with no
registered challenge is NOT rejected — the PKCE gate is skipped entirely
and the verifier is ignored (see the counterexample). -/
theorem pkce_gate_semantics :
    (∀ ch v : String, verifyPKCE ch "S256" v = true ↔ computeS256 v = ch) ∧
    (∀ ch m v : String, m ≠ "S256" → (verifyPKCE ch m v = true ↔ v = ch)) ∧
    (∀ (cfg : Config) (db : Database) (req : TokenRequest) (now : Nat) (ids : FreshIDs)
        (row : OAuthAuthorizationCode) (ch : String),
        findCodeRow db req.code = .ok row →
        row.codeChallenge = some ch →
        exceptOk (ExchangeCodeForToken cfg db req now ids).1 = true →
        verifyPKCE ch (row.codeChallengeMethod.getD "") req.codeVerifier = true) ∧
    (∀ ch : String, ch ≠ computeS256 "" → verifyPKCE ch "S256" "" = false) ∧
    (∀ ch m : String, m ≠ "S256" → ch ≠ "" → verifyPKCE ch m "" = false) ∧
    (∀ (cfg : Config) (db : Database) (req : TokenRequest) (now : Nat) (ids : FreshIDs)
        (v : String), (∀ r ∈ db.codes, r.codeChallenge = none) →
        ExchangeCodeForToken cfg db req now ids
          = ExchangeCodeForToken cfg db { req with codeVerifier := v } now ids) := by
  refine ⟨fun ch v => ?_, fun ch m v hm => ?_, ?_, fun ch h => ?_, fun ch m hm h => ?_, ?_⟩
  · simp [verifyPKCE]
  · simp [verifyPKCE, hm]
  · intro cfg db req now ids row ch hsel hch hok
    unfold ExchangeCodeForToken at hok
    rw [hsel] at hok
    dsimp only at hok
    cases hchk : exchangeChecks row req now with
    | error e => rw [hchk] at hok; simp [exceptOk] at hok
    | ok u =>
      unfold exchangeChecks at hchk
      rw [hch] at hchk
      split at hchk
      · exact absurd hchk (by simp)
      · split at hchk
        · exact absurd hchk (by simp)
        · split at hchk
          · exact absurd hchk (by simp)
          · dsimp only at hchk
            split at hchk
            · assumption
            · exact absurd hchk (by simp)
  · simp [verifyPKCE]
    exact fun hc => h hc.symm
  · simp [verifyPKCE, hm]
    exact fun hc => h hc.symm
  · intro cfg db req now ids v hnone
    unfold ExchangeCodeForToken
    dsimp only
    cases hsel : findCodeRow db req.code with
    | error e => rfl
    | ok row =>
      have hmem : row ∈ db.codes := by
        unfold findCodeRow at hsel
        cases hf : db.codes.find? (fun r => r.code == req.code && r.isUsed == false) with
        | none => rw [hf] at hsel; exact absurd hsel (by simp)
        | some r =>
          rw [hf] at hsel
          injection hsel with h1
          exact h1 ▸ List.mem_of_find?_eq_some hf
      have hch : row.codeChallenge = none := hnone row hmem
      dsimp only
      have hchk : exchangeChecks row { req with codeVerifier := v } now
          = exchangeChecks row req now := by
        unfold exchangeChecks
        rw [hch]
      rw [hchk]
      cases hc2 : exchangeChecks row req now with
      | error e => rfl
      | ok u => rfl

/-- C9: when the revocation-ledger lookup errors, `IsTokenRevoked` reports
`(false, err)` and both callers discard the error, so the refresh grant and
introspection behave exactly as if the token were not revoked (fail-open). -/
theorem revocation_lookup_fails_open :
    (∀ (rev : List (String × Nat)) (id : String) (now : Nat),
        RedisHelper.IsTokenRevoked ⟨rev, true⟩ id now = (false, true)) ∧
    (∀ cfg db rev req now ids,
        RefreshTokenGrant cfg db ⟨rev, true⟩ req now ids
          = RefreshTokenGrant cfg db ledgerEmpty req now ids) ∧
    (∀ cfg rev tok now,
        IntrospectToken cfg ⟨rev, true⟩ tok now = IntrospectToken cfg ledgerEmpty tok now) := by
  refine ⟨fun rev id now => rfl, fun cfg db rev req now ids => ?_, fun cfg rev tok now => ?_⟩
  · unfold RefreshTokenGrant
    cases ValidateToken cfg.secret jwtV5ExpCheck now req.refreshToken <;>
      simp [RedisHelper.IsTokenRevoked, ledgerEmpty]
  · unfold IntrospectToken
    cases ValidateToken cfg.secret jwtV5ExpCheck now tok <;>
      simp [RedisHelper.IsTokenRevoked, ledgerEmpty]

/-- C5 (amended): `ValidateToken` rejects any token whose declared
algorithm is outside the HMAC family (it does NOT restrict to the single
configured HS256 — see the counterexample), and it re-checks the expiry
claim itself, rejecting any token with `exp` in the past whatever the
signature library's own expiry verdict was; a well-signed HMAC-family token
with timely claims is accepted. -/
theorem validate_hmac_family_and_own_expiry_check :
    (∀ (secret : String) (libExp : Nat → Nat → Bool) (now : Nat) (t : TokenString),
        t.alg.isHMAC = false →
        ValidateToken secret libExp now (.parsed t) = .error .parseFailed) ∧
    (∀ (secret : String) (libExp : Nat → Nat → Bool) (now : Nat) (t : TokenString) (e : Nat) (r : JWTClaims),
        t.claims.reg.expiresAt = some e → e < now →
        ValidateToken secret libExp now (.parsed t) ≠ .ok r) ∧
    (∀ (secret : String) (libExp : Nat → Nat → Bool) (now : Nat) (t : TokenString),
        t.alg.isHMAC = true →
        t.tag = ⟨t.alg, secret, t.claims⟩ →
        t.claims.reg.expiresAt.all (fun e => libExp e now) = true →
        t.claims.reg.notBefore.all (fun nb => decide (nb ≤ now)) = true →
        t.claims.reg.expiresAt.all (fun e => decide (¬ e < now)) = true →
        ValidateToken secret libExp now (.parsed t) = .ok t.claims) := by
  refine ⟨fun secret libExp now t h => ?_, fun secret libExp now t e r hexp hlt => ?_,
          fun secret libExp now t halg htag hexp hnbf hown => ?_⟩
  · unfold ValidateToken
    simp [h]
  · unfold ValidateToken
    simp only [hexp]
    split
    · simp
    · split
      · simp
      · split
        · simp
        · simp [hlt]
  · unfold ValidateToken
    simp only [halg, htag]
    cases hE : t.claims.reg.expiresAt with
    | none =>
      simp [hE] at hexp hown ⊢
      cases hN : t.claims.reg.notBefore with
      | none => simp
      | some nb => simp [hN] at hnbf ⊢; simp [hnbf]
    | some e =>
      simp [hE] at hexp hown ⊢
      cases hN : t.claims.reg.notBefore with
      | none => simp [hexp, hown]
      | some nb =>
        simp [hN] at hnbf ⊢
        have h1 : ¬ now < nb := by omega
        have h2 : ¬ e < now := by omega
        simp [hexp, h1, h2]

/-- C7 (amended): `RevokeToken` succeeds for every syntactically valid,
non-expired token, writing a ledger entry whose deadline is the token's own
expiry (TTL = the remaining lifetime; validation guarantees that expiry is
still in the future whenever an `exp` claim is present); but for a
malformed or expired token it returns an invalid-token error rather than
the claimed no-op success (see the counterexample), and for the pathological
token that validates without any `exp` claim it crashes on a nil-pointer
dereference — also not a success. -/
theorem revoke_success_and_error_semantics :
    (∀ (cfg : Config) (l : Ledger) (tok : TokenInput) (now : Nat) (claims : JWTClaims),
        ValidateToken cfg.secret jwtV5ExpCheck now tok = .ok claims →
        l.faulty = false →
        now < claims.reg.expiresAt.getD 0 →
        RevokeToken cfg l tok now
          = (.ok (), { l with revoked := (claims.tokenID, claims.reg.expiresAt.getD 0) :: l.revoked })) ∧
    (∀ (cfg : Config) (l : Ledger) (tok : TokenInput) (now : Nat) (claims : JWTClaims),
        ValidateToken cfg.secret jwtV5ExpCheck now tok = .ok claims →
        claims.reg.expiresAt = none →
        RevokeToken cfg l tok now = (.error .nilDeref, l)) ∧
    (∀ (cfg : Config) (l : Ledger) (tok : TokenInput) (now : Nat),
        exceptOk (ValidateToken cfg.secret jwtV5ExpCheck now tok) = false →
        RevokeToken cfg l tok now = (.error .invalidToken, l)) := by
  refine ⟨fun cfg l tok now claims hv hf hlt => ?_, fun cfg l tok now claims hv hE => ?_,
          fun cfg l tok now hv => ?_⟩
  · unfold RevokeToken
    rw [hv]
    cases hE : claims.reg.expiresAt with
    | none => rw [hE] at hlt; simp at hlt
    | some e =>
      rw [hE] at hlt
      simp at hlt
      unfold RedisHelper.RevokeToken
      have h1 : ¬ e ≤ now := by omega
      simp [h1, hf, hE]
  · unfold RevokeToken
    rw [hv]
    simp [hE]
  · unfold RevokeToken
    cases h : ValidateToken cfg.secret jwtV5ExpCheck now tok with
    | error e => rfl
    | ok c => rw [h] at hv; simp [exceptOk] at hv

/-- C8: introspection returns `{active := false}` with every other field at
its zero value whenever the token fails validation (invalid or expired) or
is revoked; and after issuing an access token and revoking it,
introspection reports inactive while the Token Codec's `ValidateToken`
still accepts the same token — revocation is ledger-level, not
codec-level. -/
theorem introspect_inactive_and_ledger_revocation :
    (∀ (cfg : Config) (l : Ledger) (tok : TokenInput) (now : Nat),
        exceptOk (ValidateToken cfg.secret jwtV5ExpCheck now tok) = false →
        IntrospectToken cfg l tok now = { active := false }) ∧
    (∀ (cfg : Config) (l : Ledger) (tok : TokenInput) (now : Nat) (claims : JWTClaims),
        ValidateToken cfg.secret jwtV5ExpCheck now tok = .ok claims →
        (RedisHelper.IsTokenRevoked l claims.tokenID now).1 = true →
        IntrospectToken cfg l tok now = { active := false }) ∧
    (∀ (cfg : Config) (l : Ledger) (uid cid role : String) (scopes : List String) (now : Nat) (tid : String),
        l.faulty = false → 0 < cfg.accessTokenExpiry →
        (RevokeToken cfg l
            (.parsed (GenerateAccessToken cfg.secret cfg.issuer uid cid role scopes cfg.accessTokenExpiry now tid)) now).1
          = .ok () ∧
        IntrospectToken cfg
            (RevokeToken cfg l
              (.parsed (GenerateAccessToken cfg.secret cfg.issuer uid cid role scopes cfg.accessTokenExpiry now tid)) now).2
            (.parsed (GenerateAccessToken cfg.secret cfg.issuer uid cid role scopes cfg.accessTokenExpiry now tid)) now
          = { active := false } ∧
        exceptOk (ValidateToken cfg.secret jwtV5ExpCheck now
            (.parsed (GenerateAccessToken cfg.secret cfg.issuer uid cid role scopes cfg.accessTokenExpiry now tid)))
          = true) := by
  refine ⟨fun cfg l tok now hv => ?_, fun cfg l tok now claims hv hr => ?_,
          fun cfg l uid cid role scopes now tid hf hpos => ?_⟩
  · unfold IntrospectToken
    cases h : ValidateToken cfg.secret jwtV5ExpCheck now tok with
    | error e => rfl
    | ok c => rw [h] at hv; simp [exceptOk] at hv
  · unfold IntrospectToken
    rw [hv]
    simp [hr]
  · have hval : ValidateToken cfg.secret jwtV5ExpCheck now
        (.parsed (GenerateAccessToken cfg.secret cfg.issuer uid cid role scopes cfg.accessTokenExpiry now tid))
        = .ok (GenerateAccessToken cfg.secret cfg.issuer uid cid role scopes cfg.accessTokenExpiry now tid).claims := by
      unfold ValidateToken GenerateAccessToken
      have h1 : now < now + cfg.accessTokenExpiry := by omega
      have h2 : ¬ now + cfg.accessTokenExpiry < now := by omega
      simp [Alg.isHMAC, jwtV5ExpCheck, h1, h2]
    have h3 : ¬ now + cfg.accessTokenExpiry ≤ now := by omega
    have h4 : now < now + cfg.accessTokenExpiry := by omega
    refine ⟨?_, ?_, ?_⟩
    · unfold RevokeToken
      rw [hval]
      unfold RedisHelper.RevokeToken
      simp [GenerateAccessToken, h3, hf]
    · unfold RevokeToken
      rw [hval]
      unfold IntrospectToken
      rw [hval]
      unfold RedisHelper.RevokeToken RedisHelper.IsTokenRevoked
      simp [GenerateAccessToken, h3, h4, hf]
    · rw [hval]
      rfl

end Gogin


namespace Gogin

open OAuth2Service

/-! ### Witnesses: the claim theorems instantiated at concrete inputs -/

/-- C3 witness: the lifecycle theorem instantiated at concrete states — a
used code fails, an unused expired code fails with CODE_EXPIRED, the used
flag survives a later exchange, and creating a code preserves row 0. -/
theorem code_lifecycle_terminal_witness :
    ExchangeCodeForToken cfgEx { dbEx with codes := [{ codeRowEx with isUsed := true }] } exchReqEx 0 idsA
      = (.error .invalidAuthorizationCode, { dbEx with codes := [{ codeRowEx with isUsed := true }] }) ∧
    ExchangeCodeForToken cfgEx dbEx exchReqEx 1260 idsA
      = (.error .authorizationCodeExpired, dbEx) ∧
    (ExchangeCodeForToken cfgEx dbUsedExpired exchReqEx 1260 idsA).2.codes[0]?.map (fun r => r.isUsed)
      = some true ∧
    (CreateAuthorizationCode dbGood "u-1" authorizeReqSub 5 "id-9" "c-9").2.codes[0]?
      = dbGood.codes[0]? :=
  ⟨code_lifecycle_terminal.1 cfgEx { dbEx with codes := [{ codeRowEx with isUsed := true }] }
      exchReqEx 0 idsA (by decide),
   code_lifecycle_terminal.2.1 cfgEx dbEx exchReqEx 1260 idsA codeRowEx (by decide) (by decide),
   (code_lifecycle_terminal.2.2.1 cfgEx dbUsedExpired exchReqEx 1260 idsA 0).2 (by decide),
   code_lifecycle_terminal.2.2.2 dbGood "u-1" authorizeReqSub 5 "id-9" "c-9" 0 (by decide)⟩

/-- C4 witness: the PKCE theorem instantiated at the spec's `"abc123"`
S256 vector, a plain-method pair, the empty-verifier cases, and a concrete
challenge-free exchange where the verifier is ignored. -/
theorem pkce_gate_semantics_witness :
    computeS256 "abc123" = s256ChallengeEx ∧
    verifyPKCE s256ChallengeEx (codeRowPkce.codeChallengeMethod.getD "") reqPkce.codeVerifier = true ∧
    verifyPKCE "abc" "plain" "abc" = true ∧
    verifyPKCE s256ChallengeEx "S256" "" = false ∧
    verifyPKCE "ch" "plain" "" = false ∧
    ExchangeCodeForToken cfgEx dbEx exchReqEx 0 idsA
      = ExchangeCodeForToken cfgEx dbEx { exchReqEx with codeVerifier := "zzz" } 0 idsA :=
  ⟨(pkce_gate_semantics.1 s256ChallengeEx "abc123").mp (by decide),
   pkce_gate_semantics.2.2.1 cfgEx dbPkce reqPkce 0 idsA codeRowPkce s256ChallengeEx
     (by decide) rfl (by decide),
   (pkce_gate_semantics.2.1 "abc" "plain" "abc" (by decide)).mpr rfl,
   pkce_gate_semantics.2.2.2.1 s256ChallengeEx (by decide),
   pkce_gate_semantics.2.2.2.2.1 "ch" "plain" (by decide) (by decide),
   pkce_gate_semantics.2.2.2.2.2 cfgEx dbEx exchReqEx 0 idsA "zzz" (by decide)⟩

/-- C5 witness: the codec theorem instantiated concretely — an RS256 token
is rejected, an expired HS256 token is rejected at `now = 200` for any
library verdict, and the well-signed HS384 token is accepted. -/
theorem validate_hmac_family_witness :
    ValidateToken "topsecret" jwtV5ExpCheck 0 (.parsed { tokenHS384 with alg := .RS256 })
      = .error .parseFailed ∧
    ValidateToken "topsecret" jwtV5ExpCheck 200 (.parsed tokenShortLived)
      ≠ .ok tokenShortLived.claims ∧
    ValidateToken "topsecret" jwtV5ExpCheck 0 (.parsed tokenHS384) = .ok tokenHS384.claims :=
  ⟨validate_hmac_family_and_own_expiry_check.1 "topsecret" jwtV5ExpCheck 0
      { tokenHS384 with alg := .RS256 } (by decide),
   validate_hmac_family_and_own_expiry_check.2.1 "topsecret" jwtV5ExpCheck 200
      tokenShortLived 100 tokenShortLived.claims (by decide) (by decide),
   validate_hmac_family_and_own_expiry_check.2.2 "topsecret" jwtV5ExpCheck 0 tokenHS384
      (by decide) (by decide) (by decide) (by decide) (by decide)⟩

/-- C6 witness: a client registered only for `authorization_code` is denied
the client-credentials grant with GRANT_TYPE_NOT_ALLOWED, while a concrete
authorization-code exchange can never produce that error. -/
theorem grant_type_check_witness :
    ClientCredentialsGrant cfgEx dbNoCC ccReqEx 0 idsA = (.error .grantTypeNotAllowed, dbNoCC) ∧
    (ExchangeCodeForToken cfgEx dbEx exchReqEx 0 idsA).1 ≠ .error .grantTypeNotAllowed :=
  ⟨grant_type_checked_only_in_client_credentials.1 cfgEx dbNoCC ccReqEx 0 idsA clientNoCC
      (by decide) (by decide) rfl (by decide),
   grant_type_checked_only_in_client_credentials.2.1 cfgEx dbEx exchReqEx 0 idsA⟩

/-- C7 witness: revoking a live token writes the ledger entry with the
token's expiry as deadline; a token that validates without an `exp` claim
hits the nil-pointer dereference (not a success); a malformed token yields
the invalid-token error. -/
theorem revoke_semantics_witness :
    RevokeToken cfgEx ledgerEmpty (.parsed tokenShortLived) 0
      = (.ok (), { revoked := [("tid-7", 100)], faulty := false }) ∧
    RevokeToken cfgEx ledgerEmpty (.parsed tokenNoExp) 5 = (.error .nilDeref, ledgerEmpty) ∧
    RevokeToken cfgEx ledgerEmpty .malformed 3 = (.error .invalidToken, ledgerEmpty) :=
  ⟨revoke_success_and_error_semantics.1 cfgEx ledgerEmpty (.parsed tokenShortLived) 0
      tokenShortLived.claims (by decide) rfl (by decide),
   revoke_success_and_error_semantics.2.1 cfgEx ledgerEmpty (.parsed tokenNoExp) 5
      tokenNoExp.claims (by decide) rfl,
   revoke_success_and_error_semantics.2.2 cfgEx ledgerEmpty .malformed 3 (by decide)⟩

/-- C8 witness: a malformed token introspects inactive; a valid token whose
id is in the ledger introspects inactive; and the concrete
issue-revoke-introspect round trip at time 0 gives inactive while the codec
still validates the token. -/
theorem introspect_revocation_witness :
    IntrospectToken cfgEx ledgerEmpty .malformed 0 = { active := false } ∧
    IntrospectToken cfgEx ledgerTid7 (.parsed tokenShortLived) 0 = { active := false } ∧
    ((RevokeToken cfgEx ledgerEmpty
        (.parsed (GenerateAccessToken cfgEx.secret cfgEx.issuer "u-1" "cid-1" "" ["read"]
          cfgEx.accessTokenExpiry 0 "tid-1")) 0).1 = .ok () ∧
     IntrospectToken cfgEx
        (RevokeToken cfgEx ledgerEmpty
          (.parsed (GenerateAccessToken cfgEx.secret cfgEx.issuer "u-1" "cid-1" "" ["read"]
            cfgEx.accessTokenExpiry 0 "tid-1")) 0).2
        (.parsed (GenerateAccessToken cfgEx.secret cfgEx.issuer "u-1" "cid-1" "" ["read"]
          cfgEx.accessTokenExpiry 0 "tid-1")) 0 = { active := false } ∧
     exceptOk (ValidateToken cfgEx.secret jwtV5ExpCheck 0
        (.parsed (GenerateAccessToken cfgEx.secret cfgEx.issuer "u-1" "cid-1" "" ["read"]
          cfgEx.accessTokenExpiry 0 "tid-1"))) = true) :=
  ⟨introspect_inactive_and_ledger_revocation.1 cfgEx ledgerEmpty .malformed 0 (by decide),
   introspect_inactive_and_ledger_revocation.2.1 cfgEx ledgerTid7 (.parsed tokenShortLived) 0
      tokenShortLived.claims (by decide) (by decide),
   introspect_inactive_and_ledger_revocation.2.2 cfgEx ledgerEmpty "u-1" "cid-1" "" ["read"] 0
      "tid-1" rfl (by decide)⟩

/-- C10 witness: against a confidential client with the wrong secret, the
concrete exchange errors with INVALID_CLIENT_SECRET yet leaves the code row
marked used, and the retry with the same code fails as invalid. -/
theorem secret_failure_witness :
    ExchangeCodeForToken cfgEx dbConf reqWrongSecret 0 idsA
      = (.error .invalidClientSecret, markCodeUsed dbConf "ac-1") ∧
    ExchangeCodeForToken cfgEx (markCodeUsed dbConf "ac-1") reqWrongSecret 0 idsB
      = (.error .invalidAuthorizationCode, markCodeUsed dbConf "ac-1") :=
  ⟨secret_failure_leaves_code_consumed.1 cfgEx dbConf reqWrongSecret 0 idsA codeRowEx clientConf
      (by decide) (by decide) (by decide) rfl (by decide),
   secret_failure_leaves_code_consumed.2.2 cfgEx dbConf "ac-1" reqWrongSecret 0 idsB (by decide)⟩

end Gogin
